import Mathlib

/-!
Verification of the News-Sentiment-Stock-Analyzer repository.

The Python sources (src/sentiment_analyzer.py, src/stock_data.py,
src/news_collector.py, src/main.py) are shallowly embedded below.
Floating-point values coming from the external sentiment libraries and the
financial-data service are modelled as rationals (`ℚ`); the external services
themselves (yfinance, the news API, TextBlob, VADER) are modelled as explicit
environment parameters, since the repository does not control their outputs.
-/

/-! ## String helpers mirroring the Python `str` methods used by the sources -/

/-- Python `str.upper` on a single character (ASCII, as used for tickers). -/
def pyCharUpper (c : Char) : Char :=
  if h : 97 ≤ c.toNat ∧ c.toNat ≤ 122 then
    Char.ofNatAux (c.toNat - 32) (Or.inl (by omega))
  else c

/-- Python `str.lower` on a single character (ASCII). -/
def pyCharLower (c : Char) : Char :=
  if h : 65 ≤ c.toNat ∧ c.toNat ≤ 90 then
    Char.ofNatAux (c.toNat + 32) (Or.inl (by omega))
  else c

/-- Python `str.upper`. -/
def pyUpper (s : String) : String :=
  (s.toList.map pyCharUpper).asString

/-- Python `str.lower`. -/
def pyLower (s : String) : String :=
  (s.toList.map pyCharLower).asString

/-- Python `str.strip()`: drop surrounding whitespace. -/
def pyStrip (s : String) : String :=
  (((s.toList.dropWhile Char.isWhitespace).reverse.dropWhile
      Char.isWhitespace).reverse).asString

/-- Python `str.replace(a, b)` for one-character patterns. -/
def pyReplaceChar (s : String) (a b : Char) : String :=
  (s.toList.map (fun c => if c = a then b else c)).asString

/-- Python `str.replace(a, '')` for a one-character pattern: deletion. -/
def pyRemoveChar (s : String) (a : Char) : String :=
  (s.toList.filter (fun c => c ≠ a)).asString

/-- Python `str.isalpha()`: non-empty and every character alphabetic. -/
def pyIsAlpha (s : String) : Bool :=
  !s.toList.isEmpty && s.toList.all Char.isAlpha

/-- Does `needle` start the list `hay`? (helper for substring containment). -/
def listStartsWith : List Char → List Char → Bool
  | _, [] => true
  | [], _ :: _ => false
  | a :: as, b :: bs => a = b && listStartsWith as bs

/-- Is `needle` a contiguous sublist of `hay`? -/
def listContainsSub : List Char → List Char → Bool
  | [], needle => needle.isEmpty
  | a :: as, needle => listStartsWith (a :: as) needle || listContainsSub as needle

/-- Python `needle in hay` on strings (substring containment). -/
def strContains (hay needle : String) : Bool :=
  listContainsSub hay.toList needle.toList

/-! ## src/sentiment_analyzer.py -/

/-- The four scores returned by VADER's `polarity_scores` (an external
library; modelled as an opaque-valued record produced by an environment
function). -/
structure VaderScores where
  pos : ℚ
  neg : ℚ
  neu : ℚ
  compound : ℚ

/-- The dict built by `SimpleSentimentAnalyzer.analyze_text`. -/
structure SentimentResult where
  textblob_score : ℚ
  vader_positive : ℚ
  vader_negative : ℚ
  vader_neutral : ℚ
  vader_compound : ℚ
  overall_sentiment : String
  deriving DecidableEq

/-- Function `SimpleSentimentAnalyzer._get_sentiment_label`
(src/sentiment_analyzer.py lines 29-35). -/
def get_sentiment_label (score : ℚ) : String :=
  if score ≥ 0.05 then "POSITIVE"
  else if score ≤ -0.05 then "NEGATIVE"
  else "NEUTRAL"

/-- Function `SimpleSentimentAnalyzer.analyze_text` (src/sentiment_analyzer.py lines
9-27).  `textblob` and `vader` are the two external scoring libraries;
Python's `if not text` is the `text = ""` test. -/
def analyze_text (textblob : String → ℚ) (vader : String → VaderScores)
    (text : String) : Option SentimentResult :=
  if text = "" then none
  else
    let v := vader text
    some
      { textblob_score := textblob text
        vader_positive := v.pos
        vader_negative := v.neg
        vader_neutral := v.neu
        vader_compound := v.compound
        overall_sentiment := get_sentiment_label v.compound }

/-- An article as parsed from the news API JSON: each field may be missing
(Python `article.get(...)` with a default). -/
structure Article where
  title : Option String
  description : Option String
  source_name : Option String
  publishedAt : Option String
  deriving DecidableEq

/-- The dict built by `SimpleSentimentAnalyzer.analyze_article`
(src/sentiment_analyzer.py lines 37-46): text is
`f"{article.get('title', '')} {article.get('description', '')}"`. -/
structure ScoredArticle where
  title : String
  source : String
  sentiment : Option SentimentResult
  deriving DecidableEq

def analyze_article (textblob : String → ℚ) (vader : String → VaderScores)
    (article : Article) : ScoredArticle :=
  let text := (article.title.getD "") ++ " " ++ (article.description.getD "")
  { title := article.title.getD "No title"
    source := article.source_name.getD "Unknown"
    sentiment := analyze_text textblob vader text }

/-! ## src/stock_data.py : price change -/

/-- One daily OHLC bar of the yfinance history ('Close' is the only column
the program reads). -/
structure Bar where
  open_ : ℚ
  high : ℚ
  low : ℚ
  close : ℚ
  volume : ℚ
  deriving DecidableEq

/-- Python's `round(x, 2)` (round half to even, to 2 decimal places),
modelled over ℚ. -/
def round2 (q : ℚ) : ℚ :=
  (if q * 100 - (⌊q * 100⌋ : ℚ) < 1/2 then (⌊q * 100⌋ : ℚ)
   else if q * 100 - (⌊q * 100⌋ : ℚ) > 1/2 then (⌊q * 100⌋ : ℚ) + 1
   else if ⌊q * 100⌋ % 2 = 0 then (⌊q * 100⌋ : ℚ) else (⌊q * 100⌋ : ℚ) + 1) / 100

/-- Rounding `round2` fixes any rational with at most two decimal places. -/
theorem round2_eq_self (q : ℚ) (n : ℤ) (h : q * 100 = (n : ℚ)) : round2 q = q := by
  unfold round2
  rw [h, Int.floor_intCast]
  have h0 : (n : ℚ) - (n : ℚ) < 1/2 := by norm_num
  rw [if_pos h0, ← h]
  ring

/-- The dict built by `SimpleStockData.calculate_price_change`. -/
structure PriceChange where
  first_price : ℚ
  last_price : ℚ
  price_change : ℚ
  percent_change : ℚ
  trend : String
  deriving DecidableEq

/-- Function `SimpleStockData.calculate_price_change` (src/stock_data.py lines
135-154).  The `None`/empty DataFrame guard is the empty-list case; `iloc[0]`
and `iloc[-1]` are the head and last element of the bar list. -/
def calculate_price_change : List Bar → Option PriceChange
  | [] => none
  | b :: bs =>
    let first_price := b.close
    let last_price := ((b :: bs).getLast (List.cons_ne_nil b bs)).close
    let price_change := last_price - first_price
    let percent_change := (price_change / first_price) * 100
    some
      { first_price := round2 first_price
        last_price := round2 last_price
        price_change := round2 price_change
        percent_change := round2 percent_change
        trend := if price_change > 0 then "UP 📈" else "DOWN 📉" }

/-! ## src/main.py : narrative conclusion (display_results lines 118-134) -/

/-- The five narrative branches printed by
`NewsStockAnalyzer.display_results`. -/
inductive Narrative where
  | bullish
  | positiveNotRising
  | bearish
  | negativeHolding
  | neutralNoSignal
  deriving DecidableEq

/-- The conclusion branch of `NewsStockAnalyzer.display_results`
(src/main.py lines 118-134).  `price_changes` is `None` or a dict (a dict is
always non-empty here, so Python truthiness is `Option.isSome`). -/
def conclusion_narrative (avg_sentiment : ℚ) (price_changes : Option PriceChange) :
    Narrative :=
  if avg_sentiment > 0.1 then
    match price_changes with
    | some p => if p.percent_change > 0 then .bullish else .positiveNotRising
    | none => .positiveNotRising
  else if avg_sentiment < -0.1 then
    match price_changes with
    | some p => if p.percent_change < 0 then .bearish else .negativeHolding
    | none => .negativeHolding
  else .neutralNoSignal

/-! ## src/news_collector.py -/

/-- An HTTP response of the news API: a status code and the parsed JSON
body.  `json = .error ()` models `response.json()` raising (caught by the
`except` in the source); `json = .ok none` models a body without an
`articles` key (`data.get('articles', [])` then defaults to `[]`). -/
structure NewsResp where
  status : ℕ
  json : Except Unit (Option (List Article))

/-- Function `SimpleNewsCollector.get_news_for_company` (src/news_collector.py lines
16-45).  The whole HTTP request is the environment value `resp`;
`.error ()` models `requests.get` raising a transport exception.  The
function is total (returns a plain list), mirroring that the Python code
catches every exception and never raises to its caller. -/
def get_news_for_company (resp : Except Unit NewsResp) : List Article :=
  match resp with
  | .error _ => []
  | .ok r =>
    if r.status = 200 then
      match r.json with
      | .error _ => []
      | .ok data => data.getD []
    else []

/-! ## Claim theorems -/

/-- C1: for every compound score `c`, the per-article label is POSITIVE iff
`c ≥ 0.05`, NEGATIVE iff `c ≤ -0.05`, NEUTRAL otherwise; both boundaries are
inclusive on the extreme side. -/
theorem c1_sentiment_label (c : ℚ) :
    (get_sentiment_label c = "POSITIVE" ↔ 0.05 ≤ c) ∧
    (get_sentiment_label c = "NEGATIVE" ↔ c ≤ -0.05) ∧
    (get_sentiment_label c = "NEUTRAL" ↔ -0.05 < c ∧ c < 0.05) ∧
    get_sentiment_label 0.05 = "POSITIVE" ∧
    get_sentiment_label (-0.05) = "NEGATIVE" := by
  refine ⟨?_, ?_, ?_, ?_, ?_⟩
  · unfold get_sentiment_label
    split_ifs with h1 h2
    · exact iff_of_true rfl h1
    · exact iff_of_false (by decide) (by intro h; linarith)
    · exact iff_of_false (by decide) (by intro h; linarith)
  · unfold get_sentiment_label
    split_ifs with h1 h2
    · exact iff_of_false (by decide) (by intro h; linarith)
    · exact iff_of_true rfl h2
    · exact iff_of_false (by decide) (by intro h; linarith)
  · unfold get_sentiment_label
    split_ifs with h1 h2
    · exact iff_of_false (by decide) (by rintro ⟨_, hb⟩; linarith)
    · exact iff_of_false (by decide) (by rintro ⟨ha, _⟩; linarith)
    · exact iff_of_true rfl ⟨by linarith, by linarith⟩
  · norm_num [get_sentiment_label]
  · norm_num [get_sentiment_label]

/-- C2: the narrative conclusion follows the five-way rule on the mean
compound score `m` and the optional price-change record. -/
theorem c2_narrative_rule (m : ℚ) (p : Option PriceChange) :
    (conclusion_narrative m p = .bullish ↔
      m > 0.1 ∧ ∃ pc, p = some pc ∧ pc.percent_change > 0) ∧
    (conclusion_narrative m p = .positiveNotRising ↔
      m > 0.1 ∧ (p = none ∨ ∃ pc, p = some pc ∧ pc.percent_change ≤ 0)) ∧
    (conclusion_narrative m p = .bearish ↔
      m < -0.1 ∧ ∃ pc, p = some pc ∧ pc.percent_change < 0) ∧
    (conclusion_narrative m p = .negativeHolding ↔
      m < -0.1 ∧ (p = none ∨ ∃ pc, p = some pc ∧ 0 ≤ pc.percent_change)) ∧
    (conclusion_narrative m p = .neutralNoSignal ↔
      -0.1 ≤ m ∧ m ≤ 0.1) := by
  refine ⟨?_, ?_, ?_, ?_, ?_⟩ <;>
    (rcases p with _ | pc <;>
      simp only [conclusion_narrative] <;>
      split_ifs <;>
      simp_all <;>
      first
        | linarith
        | (intros ; linarith))

/-- C3: for every non-empty price history, `calculate_price_change` returns
first/last close, their difference and the percent change, each rounded to
2 decimals, and trend is UP exactly when the (unrounded) change is positive;
a change of 0 or less yields DOWN. -/
theorem c3_price_change (h : List Bar) (hne : h ≠ []) :
    ∃ pc, calculate_price_change h = some pc ∧
      pc.first_price = round2 (h.head hne).close ∧
      pc.last_price = round2 (h.getLast hne).close ∧
      pc.price_change = round2 ((h.getLast hne).close - (h.head hne).close) ∧
      pc.percent_change =
        round2 (((h.getLast hne).close - (h.head hne).close) / (h.head hne).close * 100) ∧
      (pc.trend = "UP 📈" ↔ (h.getLast hne).close - (h.head hne).close > 0) ∧
      ((h.getLast hne).close - (h.head hne).close ≤ 0 → pc.trend = "DOWN 📉") := by
  rcases h with _ | ⟨b, bs⟩
  · exact absurd rfl hne
  · have hh : (b :: bs).head hne = b := rfl
    have hl : (b :: bs).getLast hne = (b :: bs).getLast (List.cons_ne_nil b bs) := rfl
    rw [hh, hl]
    refine ⟨_, rfl, rfl, rfl, rfl, rfl, ?_, ?_⟩
    · change (if ((b :: bs).getLast (List.cons_ne_nil b bs)).close - b.close > 0 then
          "UP 📈" else "DOWN 📉") = "UP 📈" ↔ _
      split_ifs with hgt
      · exact iff_of_true rfl hgt
      · exact iff_of_false (by decide) hgt
    · intro hle
      have hngt : ¬(((b :: bs).getLast (List.cons_ne_nil b bs)).close - b.close > 0) := by
        linarith
      change (if ((b :: bs).getLast (List.cons_ne_nil b bs)).close - b.close > 0 then
          "UP 📈" else "DOWN 📉") = "DOWN 📉"
      rw [if_neg hngt]

/-- C3 witness: a concrete two-bar history with closes 10 and 23/2. -/
theorem c3_price_change_witness :
    (([⟨0, 0, 0, 10, 0⟩, ⟨0, 0, 0, 23/2, 0⟩] : List Bar) ≠ []) ∧
    ∃ pc, calculate_price_change [⟨0, 0, 0, 10, 0⟩, ⟨0, 0, 0, 23/2, 0⟩] = some pc ∧
      pc.first_price = 10 ∧ pc.last_price = 23/2 ∧ pc.price_change = 3/2 ∧
      pc.percent_change = 15 ∧ pc.trend = "UP 📈" := by
  refine ⟨List.cons_ne_nil _ _, ?_⟩
  obtain ⟨pc, hpc, h1, h2, h3, h4, h5, -⟩ :=
    c3_price_change [⟨0, 0, 0, 10, 0⟩, ⟨0, 0, 0, 23/2, 0⟩] (List.cons_ne_nil _ _)
  refine ⟨pc, hpc, ?_, ?_, ?_, ?_, ?_⟩
  · exact h1.trans (round2_eq_self 10 1000 (by norm_num))
  · exact h2.trans (round2_eq_self (23/2) 1150 (by norm_num))
  · exact h3.trans (show round2 ((23:ℚ)/2 - 10) = 3/2 by
      rw [show (23:ℚ)/2 - 10 = 3/2 by norm_num]
      exact round2_eq_self (3/2) 150 (by norm_num))
  · exact h4.trans (show round2 (((23:ℚ)/2 - 10) / 10 * 100) = 15 by
      rw [show ((23:ℚ)/2 - 10) / 10 * 100 = 15 by norm_num]
      exact round2_eq_self 15 1500 (by norm_num))
  · exact h5.mpr (show (23:ℚ)/2 - 10 > 0 by norm_num)

/-- C6: the news fetch yields the empty list on any transport exception or
any non-200 HTTP status; it is a total function and never raises. -/
theorem c6_news_failure_empty (resp : Except Unit NewsResp)
    (hfail : resp = .error () ∨ ∃ r, resp = .ok r ∧ r.status ≠ 200) :
    get_news_for_company resp = [] := by
  rcases hfail with h | ⟨r, rfl, hs⟩
  · subst h; rfl
  · simp [get_news_for_company, hs]

/-- C6 witness: a transport exception and a concrete 404 response. -/
theorem c6_news_failure_empty_witness :
    ((Except.error () : Except Unit NewsResp) = .error () ∨
      ∃ r, (Except.error () : Except Unit NewsResp) = .ok r ∧ r.status ≠ 200) ∧
    get_news_for_company (.error ()) = [] ∧
    get_news_for_company (.ok ⟨404, .ok none⟩) = [] :=
  ⟨Or.inl rfl,
   c6_news_failure_empty _ (Or.inl rfl),
   c6_news_failure_empty _ (Or.inr ⟨⟨404, .ok none⟩, rfl, by decide⟩)⟩

/-- C9: `analyze_text` returns `none` exactly for empty input, and
`analyze_article` always produces a present sentiment, because its text is
title, one space, description (missing fields defaulting to "") and hence
never empty. -/
theorem c9_empty_text (textblob : String → ℚ) (vader : String → VaderScores) :
    (∀ t, analyze_text textblob vader t = none ↔ t = "") ∧
    (∀ a, (analyze_article textblob vader a).sentiment.isSome = true) := by
  constructor
  · intro t
    unfold analyze_text
    split_ifs with h
    · simp [h]
    · simp [h]
  · intro a
    have hone : (" " : String).length = 1 := rfl
    have hne : (a.title.getD "") ++ " " ++ (a.description.getD "") ≠ "" := by
      intro h
      have hlen := congrArg String.length h
      have hzero : ("" : String).length = 0 := rfl
      rw [String.length_append, String.length_append, hone, hzero] at hlen
      omega
    simp [analyze_article, analyze_text, hne]

/-! ## src/stock_data.py : ticker validation and search -/

/-- The yfinance entity-info lookup: an (uppercased) ticker maps to a raised
exception (`.error ()`), a `None` info (`.ok none`), or an info dict,
modelled as a key/value list in which the program only tests key presence
and reads string values through `.get` with a default.  (Python's numeric
default `0` for `marketCap` is rendered as the string "0" in this
string-valued model; no claim depends on that field.) -/
def YFEnv : Type := String → Except Unit (Option (List (String × String)))

/-- Python `info.get(k, dflt)` on the modelled info dict. -/
def dictGet (kvs : List (String × String)) (k : String) (dflt : String) : String :=
  match kvs.find? (fun p => p.1 == k) with
  | some p => p.2
  | none => dflt

/-- Python `k in info` on the modelled info dict. -/
def dictHasKey (kvs : List (String × String)) (k : String) : Bool :=
  (kvs.find? (fun p => p.1 == k)).isSome

/-- The dict returned by `SimpleStockData.validate_ticker` when valid (the
Python `{'valid': True, ...}`); `none` models `{'valid': False}`. -/
structure TickerInfo where
  ticker : String
  name : String
  sector : String
  industry : String
  market_cap : String
  exchange : String
  deriving DecidableEq

/-- Function `SimpleStockData.validate_ticker` (src/stock_data.py lines 21-40):
looks up `ticker_symbol.upper()`; valid iff the info dict is truthy
(non-empty) and has a `longName` key; every exception is caught and yields
`{'valid': False}` (here `none`). -/
def validate_ticker (env : YFEnv) (ticker_symbol : String) : Option TickerInfo :=
  match env (pyUpper ticker_symbol) with
  | .error _ => none
  | .ok none => none
  | .ok (some info) =>
    if !info.isEmpty && dictHasKey info "longName" then
      some
        { ticker := pyUpper ticker_symbol
          name := dictGet info "longName" "Unknown Company"
          sector := dictGet info "sector" "Unknown"
          industry := dictGet info "industry" "Unknown"
          market_cap := dictGet info "marketCap" "0"
          exchange := dictGet info "exchange" "Unknown" }
    else none

/-- Table `self.common_names` (src/stock_data.py lines 11-19), in dict insertion
order. -/
def common_names : List (String × String) :=
  [("Apple", "AAPL"), ("Microsoft", "MSFT"), ("Google", "GOOGL"),
   ("Amazon", "AMZN"), ("Tesla", "TSLA"), ("Meta", "META"),
   ("Facebook", "META")]

/-- The Method-3 loop of `search_ticker`: try each variation in order,
skipping those longer than 10 characters, returning the first that
validates. -/
def try_variations (env : YFEnv) : List String → Option String
  | [] => none
  | v :: vs =>
    if v.length ≤ 10 then
      match validate_ticker env v with
      | some info => some info.ticker
      | none => try_variations env vs
    else try_variations env vs

/-- Function `SimpleStockData.search_ticker` (src/stock_data.py lines 42-80),
mirroring the source's sequence of early returns: strip, Method 1 (direct
validation of a short alphabetic query), Method 2 (common-names table),
Method 3 (four variations), Method 4 (uppercased query, unvalidated). -/
def search_ticker (env : YFEnv) (q : String) : String :=
  let query := pyStrip q
  let m1 : Option String :=
    if query.length ≤ 5 && pyIsAlpha (pyRemoveChar (pyRemoveChar query '.') '-') then
      match validate_ticker env query with
      | some info => some info.ticker
      | none => none
    else none
  match m1 with
  | some t => t
  | none =>
    match common_names.find? (fun p => pyLower query == pyLower p.1) with
    | some p => p.2
    | none =>
      match try_variations env
          [pyUpper query, pyReplaceChar (pyUpper query) ' ' '-',
           pyReplaceChar (pyUpper query) ' ' '.', pyRemoveChar (pyUpper query) ' '] with
      | some t => t
      | none => pyUpper query

/-- First-match-wins chaining of two optional resolution steps. -/
def firstSome (a b : Option String) : Option String :=
  match a with
  | some x => some x
  | none => b

/-- Step 1 of the spec's resolution algorithm: a query of at most 5
characters that is alphabetic after removing '.' and '-' is validated
directly. -/
def resolve_step1 (env : YFEnv) (query : String) : Option String :=
  if query.length ≤ 5 && pyIsAlpha (pyRemoveChar (pyRemoveChar query '.') '-') then
    (validate_ticker env query).map (fun info => info.ticker)
  else none

/-- Step 2: case-insensitive exact match against the common-name table. -/
def resolve_step2 (query : String) : Option String :=
  (common_names.find? (fun p => pyLower query == pyLower p.1)).map (fun p => p.2)

/-- Step 3: the four case/punctuation variants, first valid one wins. -/
def resolve_step3 (env : YFEnv) (query : String) : Option String :=
  try_variations env
    [pyUpper query, pyReplaceChar (pyUpper query) ' ' '-',
     pyReplaceChar (pyUpper query) ' ' '.', pyRemoveChar (pyUpper query) ' ']

/-- Step 4: fall back to the uppercased query, unvalidated. -/
def resolve_step4 (query : String) : String :=
  pyUpper query

/-- A valid `validate_ticker` result always carries the uppercased input as
its canonical ticker. -/
theorem validate_ticker_some_ticker (env : YFEnv) (t : String) (info : TickerInfo)
    (h : validate_ticker env t = some info) : info.ticker = pyUpper t := by
  unfold validate_ticker at h
  split at h
  · exact Option.noConfusion h
  · exact Option.noConfusion h
  · split at h
    · injection h with h'
      rw [← h']
    · exact Option.noConfusion h

/-- Unpacking a packed codepoint. -/
theorem toNat_ofNatAux (n : ℕ) (h : n.isValidChar) : (Char.ofNatAux n h).toNat = n := rfl

/-- Python's `upper` is idempotent on characters. -/
theorem pyCharUpper_idem (c : Char) : pyCharUpper (pyCharUpper c) = pyCharUpper c := by
  unfold pyCharUpper
  split_ifs with h1 h2
  · exfalso
    rw [toNat_ofNatAux] at h2
    omega
  · rfl
  · rfl

/-- Python's `upper` is idempotent on strings. -/
theorem pyUpper_idem (s : String) : pyUpper (pyUpper s) = pyUpper s := by
  unfold pyUpper
  rw [List.toList_asString, List.map_map]
  have hfun : pyCharUpper ∘ pyCharUpper = pyCharUpper := funext pyCharUpper_idem
  rw [hfun]

/-- Any ticker produced by the Method-3 variation loop is an uppercased
string. -/
theorem try_variations_some_upper (env : YFEnv) (vs : List String) (t : String)
    (h : try_variations env vs = some t) : pyUpper t = t := by
  induction vs with
  | nil => exact Option.noConfusion h
  | cons v vs ih =>
    unfold try_variations at h
    split at h
    · split at h
      · rename_i info hv
        injection h with h'
        rw [← h', validate_ticker_some_ticker env v info hv]
        exact pyUpper_idem v
      · exact ih h
    · exact ih h

/-- Every ticker in the common-names table is uppercased. -/
theorem common_names_upper :
    ∀ p ∈ common_names, pyUpper p.2 = p.2 := by decide

/-- C10: `search_ticker` is a total function (every lookup failure is
absorbed inside `validate_ticker`, so no exception reaches the caller) and
its result is always fully uppercased: it equals its own uppercase image,
whichever of the four resolution steps produced it. -/
theorem c10_search_ticker_upper (env : YFEnv) (q : String) :
    pyUpper (search_ticker env q) = search_ticker env q := by
  simp only [search_ticker]
  split
  · rename_i t hm1
    split at hm1
    · split at hm1
      · rename_i info hv
        injection hm1 with h'
        rw [← h', validate_ticker_some_ticker env (pyStrip q) info hv]
        exact pyUpper_idem _
      · exact Option.noConfusion hm1
    · exact Option.noConfusion hm1
  · split
    · rename_i p hf
      exact common_names_upper p (List.mem_of_find?_eq_some hf)
    · split
      · rename_i t ht
        exact try_variations_some_upper env _ t ht
      · exact pyUpper_idem _

/-- C4: ticker resolution follows the four steps in order, first match
winning (the query is first stripped of surrounding whitespace, source line
47); a winning step 1 returns the canonical uppercased ticker, and in
particular a query "AAPL" that validates in step 1 yields "AAPL" without
reaching steps 2-4. -/
theorem c4_search_ticker_steps (env : YFEnv) (q : String) :
    search_ticker env q =
      (firstSome (resolve_step1 env (pyStrip q))
        (firstSome (resolve_step2 (pyStrip q))
          (resolve_step3 env (pyStrip q)))).getD (resolve_step4 (pyStrip q)) ∧
    ((resolve_step1 env (pyStrip q)).isSome = true →
      search_ticker env q = pyUpper (pyStrip q)) ∧
    ((validate_ticker env "AAPL").isSome = true →
      search_ticker env "AAPL" = "AAPL") := by
  have hmain : search_ticker env q =
      (firstSome (resolve_step1 env (pyStrip q))
        (firstSome (resolve_step2 (pyStrip q))
          (resolve_step3 env (pyStrip q)))).getD (resolve_step4 (pyStrip q)) := by
    simp only [search_ticker, resolve_step1, resolve_step2, resolve_step3, resolve_step4,
      firstSome]
    split_ifs with hc <;>
      cases hv : validate_ticker env (pyStrip q) <;>
      cases hf : common_names.find? (fun p => pyLower (pyStrip q) == pyLower p.1) <;>
      cases ht : try_variations env
        [pyUpper (pyStrip q), pyReplaceChar (pyUpper (pyStrip q)) ' ' '-',
         pyReplaceChar (pyUpper (pyStrip q)) ' ' '.',
         pyRemoveChar (pyUpper (pyStrip q)) ' '] <;>
      simp [hv, hf, ht]
  refine ⟨hmain, ?_, ?_⟩
  · intro hs
    obtain ⟨t, ht⟩ := Option.isSome_iff_exists.mp hs
    rw [hmain]
    unfold resolve_step1 at ht ⊢
    split_ifs at ht ⊢ with hc
    · rcases Option.map_eq_some'.mp ht with ⟨info, hinfo, htick⟩
      rw [hinfo]
      simp only [Option.map_some', firstSome, Option.getD_some]
      exact validate_ticker_some_ticker env (pyStrip q) info hinfo
  · intro hv
    obtain ⟨info, hinfo⟩ := Option.isSome_iff_exists.mp hv
    have hstrip : pyStrip "AAPL" = "AAPL" := by decide
    have hup : pyUpper "AAPL" = "AAPL" := by decide
    have hcond : ("AAPL".length ≤ 5 &&
        pyIsAlpha (pyRemoveChar (pyRemoveChar "AAPL" '.') '-')) = true := by decide
    simp only [search_ticker, hstrip, hcond, if_true, hinfo]
    rw [validate_ticker_some_ticker env "AAPL" info hinfo, hup]

/-- C4 witness: an environment in which only "AAPL" validates; the query
"AAPL" resolves through step 1. -/
theorem c4_search_ticker_steps_witness :
    (resolve_step1 (fun s => if s = "AAPL" then Except.ok (some [("longName", "Apple Inc.")])
        else Except.error ()) (pyStrip "AAPL")).isSome = true ∧
    (validate_ticker (fun s => if s = "AAPL" then Except.ok (some [("longName", "Apple Inc.")])
        else Except.error ()) "AAPL").isSome = true ∧
    search_ticker (fun s => if s = "AAPL" then Except.ok (some [("longName", "Apple Inc.")])
        else Except.error ()) "AAPL" = pyUpper (pyStrip "AAPL") ∧
    search_ticker (fun s => if s = "AAPL" then Except.ok (some [("longName", "Apple Inc.")])
        else Except.error ()) "AAPL" = "AAPL" := by
  refine ⟨by decide, by decide, ?_, ?_⟩
  · exact (c4_search_ticker_steps (fun s => if s = "AAPL"
      then Except.ok (some [("longName", "Apple Inc.")]) else Except.error ())
      "AAPL").2.1 (by decide)
  · exact (c4_search_ticker_steps (fun s => if s = "AAPL"
      then Except.ok (some [("longName", "Apple Inc.")]) else Except.error ())
      "AAPL").2.2 (by decide)

/-- The claim's reading of ticker validity (spec §4.3: "valid iff the
response contains a non-empty canonical long name field"): the looked-up
info has a `longName` key whose VALUE is a non-empty string. -/
def has_nonempty_long_name (resp : Option (List (String × String))) : Bool :=
  match resp with
  | some kvs =>
    match kvs.find? (fun p => p.1 == "longName") with
    | some p => p.2 != ""
    | none => false
  | none => false

/-- C5 counterexample: an info dict whose `longName` value is the empty
string.  The source (`if info and 'longName' in info`) only tests key
presence, so `validate_ticker` reports valid although the long-name field
is empty, refuting the claim as stated. -/
theorem c5_long_name_counterexample :
    (validate_ticker (fun _ => Except.ok (some [("longName", "")])) "TEST").isSome = true ∧
    has_nonempty_long_name (some [("longName", "")]) = false := by
  exact ⟨by decide, by decide⟩

/-- C5 (amended): `validate_ticker` reports valid iff the lookup returns,
without exception, a non-`None`, non-empty info dict that CONTAINS the
`longName` key (its value is not inspected); and any exception during the
lookup yields the invalid result rather than propagating. -/
theorem c5_validate_ticker_amended (env : YFEnv) (t : String) :
    ((validate_ticker env t).isSome = true ↔
      ∃ kvs, env (pyUpper t) = Except.ok (some kvs) ∧ kvs ≠ [] ∧
        dictHasKey kvs "longName" = true) ∧
    (env (pyUpper t) = Except.error () → validate_ticker env t = none) := by
  constructor
  · constructor
    · intro hs
      unfold validate_ticker at hs
      split at hs
      · simp at hs
      · simp at hs
      · rename_i kvs heq
        split at hs
        · rename_i hc
          rw [Bool.and_eq_true] at hc
          refine ⟨kvs, heq, ?_, hc.2⟩
          intro hnil
          subst hnil
          simp at hc
        · simp at hs
    · rintro ⟨kvs, heq, hne, hkey⟩
      unfold validate_ticker
      rw [heq]
      rcases kvs with _ | ⟨p, rest⟩
      · exact absurd rfl hne
      · simp [hkey]
  · intro herr
    unfold validate_ticker
    rw [herr]

/-- C5 witness: a lookup that always raises yields the invalid result. -/
theorem c5_validate_ticker_amended_witness :
    ((fun _ => Except.error () : YFEnv) (pyUpper "MSFT") = Except.error ()) ∧
    validate_ticker (fun _ => Except.error ()) "MSFT" = none :=
  ⟨rfl, (c5_validate_ticker_amended (fun _ => Except.error ()) "MSFT").2 rfl⟩

/-! ## src/main.py : NewsStockAnalyzer.analyze_company (lines 22-78) -/

/-- One entry of `self.search_history` (src/main.py lines 23-26). -/
structure HistoryEntry where
  company : String
  timestamp : String
  deriving DecidableEq

/-- The observable external effects of one `analyze_company` run, in
program order. -/
inductive Effect where
  | fetchNews
  | scoreArticle
  | fetchStock
  | fetchCurrentPrice
  | render
  deriving DecidableEq

/-- The environment of one `analyze_company` run: the wall clock
(`datetime.now()` already formatted), the news API response, the two
sentiment libraries, and the yfinance results used in STEP 3. -/
structure AnalyzerEnv where
  now : String
  newsResp : Except Unit NewsResp
  textblob : String → ℚ
  vader : String → VaderScores
  stockHistory : Option (List Bar)
  currentPrice : Option ℚ

/-- Access `result['sentiment']['vader_compound']` (src/main.py line 58).  A
`None` sentiment would be a Python TypeError; theorem c9_empty_text shows
this branch is unreachable, so the 0 default is never taken. -/
def scored_compound (s : ScoredArticle) : ℚ :=
  match s.sentiment with
  | some r => r.vader_compound
  | none => 0

/-- Access `result['sentiment']['overall_sentiment']` (src/main.py line 50); the
`none` branch is unreachable as above. -/
def scored_label (s : ScoredArticle) : String :=
  match s.sentiment with
  | some r => r.overall_sentiment
  | none => ""

/-- The three counters of the scoring loop. -/
inductive Bucket where
  | pos
  | neg
  | neu
  deriving DecidableEq

/-- The branch of the counting loop (src/main.py lines 50-56): Python's
`'POSITIVE' in sentiment_label` substring tests, POSITIVE checked first. -/
def label_bucket (s : ScoredArticle) : Bucket :=
  if strContains (scored_label s) "POSITIVE" then Bucket.pos
  else if strContains (scored_label s) "NEGATIVE" then Bucket.neg
  else Bucket.neu

/-- The aggregate data handed to `display_results` (src/main.py lines
69-78), together with the narrative it prints. -/
structure Summary where
  topSentiments : List ScoredArticle
  posCount : ℕ
  negCount : ℕ
  neuCount : ℕ
  avgSentiment : ℚ
  currentPrice : Option ℚ
  priceChanges : Option PriceChange
  narrative : Narrative

/-- Function `NewsStockAnalyzer.analyze_company` (src/main.py lines 22-78): append
the history entry, fetch news, abort on an empty article list, otherwise
score the first 10 articles, count labels, average the compound scores over
the scored articles, fetch stock data and render.  The returned triple is
(new history, effect trace, summary or aborted). -/
def analyze_company (env : AnalyzerEnv) (search_history : List HistoryEntry)
    (company_name : String) : List HistoryEntry × List Effect × Option Summary :=
  let history := search_history ++ [{ company := company_name, timestamp := env.now }]
  let articles := get_news_for_company env.newsResp
  if articles = [] then
    (history, [Effect.fetchNews], none)
  else
    let sentiments := (articles.take 10).map (analyze_article env.textblob env.vader)
    let positive_count := (sentiments.map label_bucket).count Bucket.pos
    let negative_count := (sentiments.map label_bucket).count Bucket.neg
    let neutral_count := (sentiments.map label_bucket).count Bucket.neu
    let avg_sentiment := (sentiments.map scored_compound).sum / (sentiments.length : ℚ)
    let price_changes :=
      match env.stockHistory with
      | some h => calculate_price_change h
      | none => none
    (history,
     [Effect.fetchNews] ++ sentiments.map (fun _ => Effect.scoreArticle) ++
       [Effect.fetchStock, Effect.fetchCurrentPrice, Effect.render],
     some
       { topSentiments := sentiments.take 5
         posCount := positive_count
         negCount := negative_count
         neuCount := neutral_count
         avgSentiment := avg_sentiment
         currentPrice := env.currentPrice
         priceChanges := price_changes
         narrative := conclusion_narrative avg_sentiment price_changes })

/-- Counting a constant-mapped list. -/
theorem count_const_map {α : Type} (l : List α) (a : Effect) :
    ((l.map fun _ => a).count a) = l.length := by
  induction l with
  | nil => rfl
  | cons x xs ih => simp [List.count_cons, ih]

/-- The three bucket counts always partition the list. -/
theorem bucket_count_sum (l : List Bucket) :
    l.count Bucket.pos + l.count Bucket.neg + l.count Bucket.neu = l.length := by
  induction l with
  | nil => rfl
  | cons b bs ih =>
    cases b <;> simp [List.count_cons] <;> omega

/-- C7: the history entry is appended for every request, whatever the
outcome (it precedes the news fetch in src/main.py lines 23-33); and an
empty article list aborts the run: the only external effect is the news
fetch itself, with no scoring, no aggregation and no stock fetch. -/
theorem c7_history_and_abort (env : AnalyzerEnv) (hist : List HistoryEntry)
    (company : String) :
    (analyze_company env hist company).1 =
      hist ++ [{ company := company, timestamp := env.now }] ∧
    (get_news_for_company env.newsResp = [] →
      (analyze_company env hist company).2.1 = [Effect.fetchNews] ∧
      (analyze_company env hist company).2.2 = none) := by
  constructor
  · by_cases hart : get_news_for_company env.newsResp = [] <;>
      simp [analyze_company, hart]
  · intro hart
    simp [analyze_company, hart]

/-- C7 witness: a failing news fetch still appends the history entry and
aborts with no further effects. -/
theorem c7_history_and_abort_witness :
    get_news_for_company (Except.error ()) = [] ∧
    (analyze_company ⟨"t0", Except.error (), fun _ => 0, fun _ => ⟨0, 0, 0, 0⟩, none, none⟩
      [] "Apple").1 = [] ++ [{ company := "Apple", timestamp := "t0" }] ∧
    (analyze_company ⟨"t0", Except.error (), fun _ => 0, fun _ => ⟨0, 0, 0, 0⟩, none, none⟩
      [] "Apple").2.1 = [Effect.fetchNews] ∧
    (analyze_company ⟨"t0", Except.error (), fun _ => 0, fun _ => ⟨0, 0, 0, 0⟩, none, none⟩
      [] "Apple").2.2 = none := by
  have h := c7_history_and_abort
    ⟨"t0", Except.error (), fun _ => 0, fun _ => ⟨0, 0, 0, 0⟩, none, none⟩ [] "Apple"
  have h2 := h.2 rfl
  exact ⟨rfl, h.1, h2.1, h2.2⟩

/-- C8: for a non-empty article list, exactly the first `min 10 n` articles
are scored (seen in the effect trace), the three label buckets sum to the
number of scored articles, and the average sentiment divides the sum of
the scored articles' compound scores by the scored count, not the full
article count. -/
theorem c8_aggregation (env : AnalyzerEnv) (hist : List HistoryEntry) (company : String)
    (hne : get_news_for_company env.newsResp ≠ []) :
    ∃ s, (analyze_company env hist company).2.2 = some s ∧
      (analyze_company env hist company).2.1.count Effect.scoreArticle =
        min 10 (get_news_for_company env.newsResp).length ∧
      s.posCount + s.negCount + s.neuCount =
        min 10 (get_news_for_company env.newsResp).length ∧
      s.avgSentiment =
        (((get_news_for_company env.newsResp).take 10).map
          (fun a => scored_compound (analyze_article env.textblob env.vader a))).sum /
          ((min 10 (get_news_for_company env.newsResp).length : ℕ) : ℚ) := by
  simp only [analyze_company]
  rw [if_neg hne]
  refine ⟨_, rfl, ?_, ?_, ?_⟩
  · have h1 : ([Effect.fetchNews] : List Effect).count Effect.scoreArticle = 0 := by decide
    have h2 : ([Effect.fetchStock, Effect.fetchCurrentPrice, Effect.render] :
        List Effect).count Effect.scoreArticle = 0 := by decide
    rw [List.count_append, List.count_append, h1, h2, count_const_map]
    simp
  · rw [bucket_count_sum]
    simp
  · rw [List.map_map]
    simp [Function.comp]
    rfl

/-- C8 witness: one article scored with compound 1; one scoring effect,
buckets summing to 1, average 1. -/
theorem c8_aggregation_witness :
    get_news_for_company (Except.ok ⟨200, Except.ok
      (some [⟨some "good", some "news", some "src", none⟩])⟩) ≠ [] ∧
    ∃ s, (analyze_company
        ⟨"t0", Except.ok ⟨200, Except.ok (some [⟨some "good", some "news", some "src", none⟩])⟩,
         fun _ => 0, fun _ => ⟨0, 0, 0, 1⟩, none, none⟩ [] "Apple").2.2 = some s ∧
      (analyze_company
        ⟨"t0", Except.ok ⟨200, Except.ok (some [⟨some "good", some "news", some "src", none⟩])⟩,
         fun _ => 0, fun _ => ⟨0, 0, 0, 1⟩, none, none⟩ [] "Apple").2.1.count
        Effect.scoreArticle = 1 ∧
      s.posCount + s.negCount + s.neuCount = 1 ∧
      s.avgSentiment = 1 := by
  obtain ⟨s, hs, hcount, hsum, havg⟩ := c8_aggregation
    ⟨"t0", Except.ok ⟨200, Except.ok (some [⟨some "good", some "news", some "src", none⟩])⟩,
     fun _ => 0, fun _ => ⟨0, 0, 0, 1⟩, none, none⟩ [] "Apple" (by decide)
  refine ⟨by decide, s, hs, ?_, ?_, ?_⟩
  · rw [hcount]; decide
  · rw [hsum]; decide
  · rw [havg]
    norm_num [get_news_for_company, analyze_article, analyze_text, scored_compound]
    decide
